import Mathlib

/-!
Verification of the product filtering/pagination core of the
Latch-Tech-Challenge repository (Angular frontend + Node/MongoDB backend).

The embedding translates:
  * the data model (`Product`, `Filter`, `PriceRange`, filter entries);
  * the in-memory engine `ClientSideFilteringService`
    (client-side-product.service.ts);
  * the remote engine `ServerSideFilteringService`
    (server-side-filtering.service.ts) together with the backend
    `filterProducts` controller (controllers/productController.js) evaluated
    over an explicit dataset standing for the MongoDB collection;
  * the strategy selector `FilteringService.switchStrategy`;
  * the `ProductListComponent` event handlers (product-list component).

Modelling conventions:
  * JS numbers carrying prices and filter bounds are modelled as `Rat`
    (every concrete value in the repository is a small integer literal);
  * page numbers and page sizes are modelled as `Nat`; the JS expression
    `(page - 1) * pageSize` is the truncated `Nat` computation, which agrees
    with the source for `page ≥ 1` (and for `pageSize = 0`, where the product
    is `0` either way);
  * `Array.prototype.slice(start, start + size)` on a list with
    `start ≥ 0` is `(l.drop start).take size`;
  * `String.prototype.toLowerCase` is `String.toLower` and
    `String.prototype.includes` is substring containment over the character
    lists (the repository's data is plain ASCII);
  * nullable fields (`T | null`) are `Option`; JS truthiness tests on them
    are `Option` matches, with the empty string treated as falsy where the
    source tests a `string | null`.
-/

/-- Record `Product` (core/models/product.model.ts): id, name, category, price,
description (the optional `imgUrl` plays no role in filtering and is
omitted from the embedding). -/
structure Product where
  id : Int
  name : String
  category : String
  price : Rat
  description : String
deriving DecidableEq, Repr

/-- Record `PriceRange` (core/models/price-range.model.ts): nullable inclusive
bounds. -/
structure PriceRange where
  min : Option Rat
  max : Option Rat
deriving DecidableEq, Repr

/-- Enumeration `FilterType` (core/models/filter-type.model.ts): the five filter kinds
named in the UI component. -/
inductive FilterType where
  | value
  | range
  | greater
  | smaller
  | multiselect
deriving DecidableEq, Repr

/-- Record `Filter` (core/models/filter.model.ts): a record carrying one slot per
filter kind, each nullable.  The multiselect map is modelled as an ordered
association list of (candidate, selected) pairs.  (Named `ProductFilter`
here because `Filter` is taken by Mathlib.) -/
structure ProductFilter where
  type : FilterType
  value : Option String
  range : Option PriceRange
  greater : Option Rat
  smaller : Option Rat
  multiselect : Option (List (String × Bool))
deriving DecidableEq, Repr

/-- An element of the `filters` argument of `applyFiltersAndSearch`:
`{key: FilterType, value: Filter}`. -/
structure FilterEntry where
  key : FilterType
  value : ProductFilter
deriving DecidableEq, Repr

/-- Result record `{products, totalItems}` as produced by both filtering strategies. -/
structure PageResult where
  products : List Product
  totalItems : Nat
deriving DecidableEq, Repr

/-- Prefix test on character lists, written out so that concrete string
computations unfold by `decide`/`rfl`. -/
def charsPrefix : List Char → List Char → Bool
  | [], _ => true
  | _ :: _, [] => false
  | a :: as, b :: bs => a == b && charsPrefix as bs

/-- Substring containment on character lists: JS
`haystack.includes(needle)`. -/
def charsContain (needle : List Char) : List Char → Bool
  | [] => needle.isEmpty
  | b :: bs => charsPrefix needle (b :: bs) || charsContain needle bs

/-- JS `s.toLowerCase()` as a character list: ASCII lowering mapped over the
string's characters (kept as a list so that the kernel can evaluate it). -/
def lowerStr (s : String) : List Char :=
  s.data.map Char.toLower

/-- JS `haystack.toLowerCase().includes(needle.toLowerCase())`. -/
def strIncludes (haystack needle : String) : Bool :=
  charsContain (lowerStr needle) (lowerStr haystack)

namespace ClientSide

/-- Method `ClientSideFilteringService.applyCategoryFilter`: when at least one
category is selected, keep the products whose category appears among the
selected keys; otherwise leave the list unchanged. -/
def applyCategoryFilter (categoriesSelected : List (String × Bool))
    (ps : List Product) : List Product :=
  if categoriesSelected.any (fun kv => kv.2) then
    ps.filter (fun p =>
      ((categoriesSelected.filter (fun kv => kv.2)).map (fun kv => kv.1)).contains
        p.category)
  else
    ps

/-- Method `ClientSideFilteringService.applyPriceRangeFilter`: the source filters
only when `min !== null && max !== null`; with any null bound the product
list is left unchanged. -/
def applyPriceRangeFilter (priceRangeSelected : PriceRange)
    (ps : List Product) : List Product :=
  match priceRangeSelected.min, priceRangeSelected.max with
  | some mn, some mx =>
      ps.filter (fun p => decide (mn ≤ p.price) && decide (p.price ≤ mx))
  | _, _ => ps

/-- One pass of the `switch (filter.key)` inside
`ClientSideFilteringService.applyFilters`: `multiselect` and `range` entries
dispatch to their handlers when the corresponding slot is non-null; every
other key falls through the `switch` unhandled. -/
def applyOneFilter (f : FilterEntry) (ps : List Product) : List Product :=
  match f.key with
  | .multiselect =>
      match f.value.multiselect with
      | some sel => applyCategoryFilter sel ps
      | none => ps
  | .range =>
      match f.value.range with
      | some r => applyPriceRangeFilter r ps
      | none => ps
  | _ => ps

/-- Method `ClientSideFilteringService.applyFilters`: the `for` loop over the
filter entries, threading `filteredProducts`. -/
def applyFilters (filters : List FilterEntry) (ps : List Product) :
    List Product :=
  filters.foldl (fun acc f => applyOneFilter f acc) ps

/-- The search predicate of `ClientSideFilteringService.search`:
case-insensitive substring disjunction over name, category, description. -/
def searchMatch (term : String) (p : Product) : Bool :=
  strIncludes p.name term ||
  strIncludes p.category term ||
  strIncludes p.description term

/-- Method `ClientSideFilteringService.search`. -/
def search (term : String) (ps : List Product) : List Product :=
  ps.filter (searchMatch term)

/-- Method `ClientSideFilteringService.paginate`:
`filteredProducts.slice((page-1)*pageSize, (page-1)*pageSize + pageSize)`. -/
def paginate (page pageSize : Nat) (ps : List Product) : List Product :=
  (ps.drop ((page - 1) * pageSize)).take pageSize

/-- Method `ClientSideFilteringService.applyFiltersAndSearch`: reset to the full
list, apply filters, apply the search, record the pre-pagination count,
paginate. -/
def applyFiltersAndSearch (products : List Product) (searchTerm : String)
    (filters : List FilterEntry) (pageNumber pageSize : Nat) : PageResult :=
  let filtered := search searchTerm (applyFilters filters products)
  { products := paginate pageNumber pageSize filtered
    totalItems := filtered.length }

end ClientSide

/-- Dataset `PRODUCTS` (mocks/products.mock.ts): the ten-product mock dataset. -/
def PRODUCTS : List Product :=
  [ ⟨1, "Laptop", "Electronics", 999, "High-end laptop"⟩,
    ⟨2, "Phone", "Electronics", 699, "Smartphone"⟩,
    ⟨3, "Shoes", "Fashion", 99, "Running shoes"⟩,
    ⟨4, "T-shirt", "Fashion", 19, "Cotton t-shirt"⟩,
    ⟨5, "Sunglasses", "Fashion", 49, "UV protection"⟩,
    ⟨6, "Headphones", "Electronics", 199, "Noise-cancelling"⟩,
    ⟨7, "Backpack", "Fashion", 79, "Waterproof"⟩,
    ⟨8, "Watch", "Fashion", 149, "Analog watch"⟩,
    ⟨9, "Camera", "Electronics", 299, "DSLR camera"⟩,
    ⟨10, "Tablet", "Electronics", 399, "Large screen"⟩ ]

namespace Component

/-- The mutable fields of `ProductListComponent` (product-list component)
that take part in filtering and pagination. -/
structure State where
  products : List Product
  filteredProducts : List Product
  currentPageProducts : List Product
  currentPage : Nat
  pageSize : Nat
  searchTerm : String
  totalItems : Nat
  categoriesSelected : Option (List (String × Bool))
  priceRangeSelected : Option PriceRange
deriving DecidableEq, Repr

/-- Method `ProductListComponent.filterCategories`: guarded by the truthiness of
`categoriesSelected`, then the same logic as the client-side engine's
category filter. -/
def filterCategories (st : State) : State :=
  match st.categoriesSelected with
  | some sel =>
      { st with
        filteredProducts := ClientSide.applyCategoryFilter sel st.filteredProducts }
  | none => st

/-- Method `ProductListComponent.filterPriceRange`: guarded by the truthiness of
`priceRangeSelected`, then the same both-bounds-non-null logic as the
client-side engine's price-range filter. -/
def filterPriceRange (st : State) : State :=
  match st.priceRangeSelected with
  | some r =>
      { st with
        filteredProducts := ClientSide.applyPriceRangeFilter r st.filteredProducts }
  | none => st

/-- Method `ProductListComponent.searchProducts`: filter by the search term only
when the term is non-empty (truthy); always refresh `totalItems`. -/
def searchProducts (st : State) : State :=
  let fp :=
    if st.searchTerm = "" then st.filteredProducts
    else st.filteredProducts.filter (ClientSide.searchMatch st.searchTerm)
  { st with filteredProducts := fp, totalItems := fp.length }

/-- Method `ProductListComponent.paginateProducts`. -/
def paginateProducts (st : State) : State :=
  { st with
    currentPageProducts :=
      ClientSide.paginate st.currentPage st.pageSize st.filteredProducts }

/-- Method `ProductListComponent.applyFiltersAndSearch`: reset `filteredProducts`
to the full list, then categories, price range, search, pagination. -/
def applyFiltersAndSearch (st : State) : State :=
  paginateProducts (searchProducts (filterPriceRange (filterCategories
    { st with filteredProducts := st.products })))

/-- Method `ProductListComponent.onPageChange`. -/
def onPageChange (newPage : Nat) (st : State) : State :=
  paginateProducts { st with currentPage := newPage }

/-- Method `ProductListComponent.onPageSizeChange`. -/
def onPageSizeChange (newSize : Nat) (st : State) : State :=
  applyFiltersAndSearch { st with pageSize := newSize, currentPage := 1 }

/-- Method `ProductListComponent.onSearch`. -/
def onSearch (term : String) (st : State) : State :=
  applyFiltersAndSearch { st with searchTerm := term, currentPage := 1 }

/-- Method `ProductListComponent.onCategoriesSelectedChange`: stores the incoming
multiselect map and re-applies filters; the source does not touch
`currentPage` here. -/
def onCategoriesSelectedChange (filterChange : ProductFilter) (st : State) :
    State :=
  applyFiltersAndSearch { st with categoriesSelected := filterChange.multiselect }

/-- Method `ProductListComponent.onPriceRangeChange`: stores the incoming price
range and re-applies filters; the source does not touch `currentPage`
here. -/
def onPriceRangeChange (filterChange : ProductFilter) (st : State) : State :=
  applyFiltersAndSearch { st with priceRangeSelected := filterChange.range }

end Component

/-- The two filtering strategies held by `FilteringService`. -/
inductive Strategy where
  | clientSide
  | serverSide
deriving DecidableEq, Repr

namespace FilteringService

/-- Method `FilteringService.switchStrategy`: fetch the product count, pick the
server-side strategy exactly when `count > treshold` (field name as in the
source), otherwise the client-side one; the observable then emits the count
unchanged (`tap` does not alter the emitted value). -/
def switchStrategy (treshold count : Nat) : Strategy × Nat :=
  (if count > treshold then .serverSide else .clientSide, count)

end FilteringService

namespace ServerSide

/-- The JS value placed in a payload filter's `values` slot by
`ServerSideFilteringService.applyFiltersAndSearch`:
`filter.value.value ? filter.value.value : []` yields either the raw string
(when truthy) or an empty array. -/
inductive PayloadValues where
  | str (s : String)
  | list (vs : List String)
deriving DecidableEq, Repr

/-- One serialized filter of the request payload:
`{key, values, type, logic}`. -/
structure PayloadFilter where
  key : FilterType
  values : PayloadValues
  type : FilterType
  logic : String
deriving DecidableEq, Repr

/-- Record `FilterRequestPayload` as built by
`ServerSideFilteringService.applyFiltersAndSearch`: search term, the
`{logic, filters}` object, current page, page size. -/
structure FilterRequestPayload where
  searchTerm : String
  logic : String
  filters : List PayloadFilter
  currentPage : Nat
  pageSize : Nat
deriving DecidableEq, Repr

/-- Serialization of one filter entry: the entry's `key` (a filter *type*)
is sent as the payload key, `values` comes from the entry's `value.value`
string slot (JS truthiness: `null` and `""` give `[]`), `type` from
`value.type`, and per-filter logic is fixed to `"or"`. -/
def serializeEntry (f : FilterEntry) : PayloadFilter :=
  { key := f.key
    values :=
      match f.value.value with
      | some s => if s = "" then .list [] else .str s
      | none => .list []
    type := f.value.type
    logic := "or" }

/-- The payload sent by `ServerSideFilteringService.applyFiltersAndSearch`,
with top-level combine logic `"and"`. -/
def buildPayload (searchTerm : String) (filters : List FilterEntry)
    (pageNumber pageSize : Nat) : FilterRequestPayload :=
  { searchTerm := searchTerm
    logic := "and"
    filters := filters.map serializeEntry
    currentPage := pageNumber
    pageSize := pageSize }

/-- The four fields `ServerSideFilteringService` stores from the last
`applyFiltersAndSearch` call. -/
structure RemoteState where
  currentSearchTerm : String
  currentFilters : List FilterEntry
  currentPage : Nat
  pageSize : Nat
deriving DecidableEq, Repr

/-- The state effect of `ServerSideFilteringService.applyFiltersAndSearch`:
store the four arguments, and issue the serialized payload to the data
source. -/
def applyCall (_st : RemoteState) (searchTerm : String)
    (filters : List FilterEntry) (pageNumber pageSize : Nat) :
    RemoteState × FilterRequestPayload :=
  ({ currentSearchTerm := searchTerm
     currentFilters := filters
     currentPage := pageNumber
     pageSize := pageSize },
   buildPayload searchTerm filters pageNumber pageSize)

/-- Method `ServerSideFilteringService.paginate`: delegates to
`applyFiltersAndSearch` with the stored search term and filters and the new
page and page size. -/
def paginateCall (st : RemoteState) (page pageSize : Nat) :
    RemoteState × FilterRequestPayload :=
  applyCall st st.currentSearchTerm st.currentFilters page pageSize

end ServerSide

namespace Server

/-- A MongoDB field value of a stored product document; `missing` stands
for a field the document does not have.  The document fields follow the
`productSchema` of the backend: name, description, price, category (the
image URL is irrelevant to filtering). -/
inductive FieldValue where
  | str (s : String)
  | num (q : Rat)
  | missing
deriving DecidableEq, Repr

/-- Field lookup on a stored product document. -/
def getField (p : Product) (k : String) : FieldValue :=
  if k = "name" then .str p.name
  else if k = "description" then .str p.description
  else if k = "category" then .str p.category
  else if k = "price" then .num p.price
  else .missing

/-- The JSON string under which a `FilterType` travels as a payload key. -/
def keyName : FilterType → String
  | .value => "value"
  | .range => "range"
  | .greater => "greater"
  | .smaller => "smaller"
  | .multiselect => "multiselect"

/-- Modelled `parseFloat`, covering the integer numerals that occur in this
system; `none` stands for `NaN` (including `parseFloat(undefined)`). -/
def parseFloat (s : String) : Option Rat :=
  (s.toInt?).map (fun n => (n : Rat))

/-- JS indexing `values[i]`: list indexing on an array, character indexing
on a string, `undefined` (`none`) past the end. -/
def valuesIdx : ServerSide.PayloadValues → Nat → Option String
  | .str s, i => (s.data.get? i).map (fun c => String.mk [c])
  | .list vs, i => vs.get? i

/-- One MongoDB condition attached to a query key. -/
inductive FieldCond where
  | inList (vals : List String)
  | allList (vals : List String)
  | range (lo hi : Option Rat)
deriving DecidableEq, Repr

/-- The condition `filterProducts` builds for one payload filter: `range`
filters become `{$gte: parseFloat(values[0]), $lte: parseFloat(values[1])}`;
any other type becomes `$in` (logic `"or"`) or `$all` over `values`.  MongoDB
rejects `$in`/`$all` whose argument is not an array, which the controller's
`catch` turns into the 500 response. -/
def buildCond (f : ServerSide.PayloadFilter) : Except String FieldCond :=
  if f.type = .range then
    .ok (.range ((valuesIdx f.values 0).bind parseFloat)
                ((valuesIdx f.values 1).bind parseFloat))
  else
    match f.values with
    | .list vs => .ok (if f.logic = "or" then .inList vs else .allList vs)
    | .str _ => .error "Failed to filter products"

/-- JS object assignment `query[filterKey] = cond`: replace an existing
binding in place, otherwise append. -/
def upsert (k : String) (c : FieldCond) :
    List (String × FieldCond) → List (String × FieldCond)
  | [] => [(k, c)]
  | (k', c') :: rest =>
      if k' = k then (k, c) :: rest else (k', c') :: upsert k c rest

/-- The `forEach` of `filterProducts` over `filters.filters`, accumulating
the per-key conditions of the query object. -/
def buildConds (fs : List ServerSide.PayloadFilter) :
    Except String (List (String × FieldCond)) :=
  fs.foldlM (fun acc f => (buildCond f).map (fun c => upsert (keyName f.key) c acc))
    []

/-- Modelled MongoDB `$gte` bound check on a number: in the BSON order
`NaN` (`none`) sorts below every number, so every number is `≥ NaN`. -/
def numGte (q : Rat) : Option Rat → Bool
  | some lo => decide (lo ≤ q)
  | none => true

/-- Modelled MongoDB `$lte` bound check on a number: no number other than
`NaN` itself is `≤ NaN` (`none`). -/
def numLte (q : Rat) : Option Rat → Bool
  | some hi => decide (q ≤ hi)
  | none => false

/-- Modelled MongoDB evaluation of one field condition: `$in` matches a
string field listed among the values (`$in: []` matches nothing, as does a
missing field); `$all` on a scalar field requires every listed value to
equal it and `$all: []` matches nothing; a range condition only matches a
numeric field within the bounds. -/
def evalCond (v : FieldValue) : FieldCond → Bool
  | .inList vals =>
      match v with
      | .str s => vals.contains s
      | _ => false
  | .allList vals =>
      match v with
      | .str s => !vals.isEmpty && vals.all (fun x => x == s)
      | _ => false
  | .range lo hi =>
      match v with
      | .num q => numGte q lo && numLte q hi
      | _ => false

/-- The `$or` search clause of `filterProducts`: `$regex` with option `i`
against name, description, category, modelled as case-insensitive literal
substring match (the payloads of this system carry plain search text). -/
def searchClause (term : String) (p : Product) : Bool :=
  strIncludes p.name term ||
  strIncludes p.description term ||
  strIncludes p.category term

/-- Whether a document matches the assembled query: the search clause is
present only for a truthy (non-empty) search term, and every keyed
condition must hold. -/
def matchesQuery (term : String) (conds : List (String × FieldCond))
    (p : Product) : Bool :=
  (decide (term = "") || searchClause term p) &&
  conds.all (fun kc => evalCond (getField p kc.1) kc.2)

/-- MongoDB `skip`. -/
def mongoSkip (n : Nat) (l : List Product) : List Product :=
  l.drop n

/-- MongoDB `limit`: `limit(0)` means no limit. -/
def mongoLimit (n : Nat) (l : List Product) : List Product :=
  if n = 0 then l else l.take n

/-- Controller `filterProducts` (controllers/productController.js) evaluated against an
explicit dataset standing for the MongoDB collection in natural (insertion)
order: build the query, count the matching documents, return the
skip/limit page of them; a query-construction failure surfaces as the 500
response body. -/
def filterProducts (dataset : List Product)
    (payload : ServerSide.FilterRequestPayload) : Except String PageResult :=
  (buildConds payload.filters).map (fun conds =>
    let matched := dataset.filter (matchesQuery payload.searchTerm conds)
    { products :=
        mongoLimit payload.pageSize
          (mongoSkip ((payload.currentPage - 1) * payload.pageSize) matched)
      totalItems := matched.length })

end Server

/-- The remote engine end to end over a given dataset:
`ServerSideFilteringService.applyFiltersAndSearch` serializes the query
state and the backend `filterProducts` answers it. -/
def ServerSide.applyFiltersAndSearch (dataset : List Product)
    (searchTerm : String) (filters : List FilterEntry)
    (pageNumber pageSize : Nat) : Except String PageResult :=
  Server.filterProducts dataset
    (ServerSide.buildPayload searchTerm filters pageNumber pageSize)

section Claims

/-- C2 counterexample: the claim requires a range filter with `min = 50`
and a null `max` to exclude a product priced 19 (`19 ≥ 50` fails), but the
client-side range filter leaves the list untouched whenever either bound is
null. -/
theorem c2_half_null_range_counterexample :
    ClientSide.applyPriceRangeFilter ⟨some 50, none⟩
        [⟨4, "T-shirt", "Fashion", 19, "Cotton t-shirt"⟩]
      = [⟨4, "T-shirt", "Fashion", 19, "Cotton t-shirt"⟩] ∧
    ¬ ((50 : Rat) ≤ (19 : Rat)) := by
  exact ⟨rfl, by decide⟩

/-- C2 amended: the range filter is pointwise, keeping exactly the products
with `min ≤ price ≤ max`, but only when BOTH bounds are non-null; if either
bound is null the filter imposes no restriction at all (also not on the
non-null side). -/
theorem c2_range_filter_semantics (r : PriceRange) (ps : List Product) :
    ClientSide.applyPriceRangeFilter r ps =
      ps.filter (fun p =>
        match r.min, r.max with
        | some mn, some mx => decide (mn ≤ p.price) && decide (p.price ≤ mx)
        | _, _ => true) := by
  match r with
  | ⟨some mn, some mx⟩ => rfl
  | ⟨some mn, none⟩ => simp [ClientSide.applyPriceRangeFilter]
  | ⟨none, mx⟩ =>
      cases mx <;> simp [ClientSide.applyPriceRangeFilter]

/-- C3: `switchStrategy` emits the product count unchanged, selects the
server-side (Remote) strategy exactly when the count exceeds the threshold,
selects the client-side (In-Memory) strategy otherwise, and in particular a
count equal to the threshold selects the client-side strategy. -/
theorem c3_switchStrategy_threshold (treshold count : Nat) :
    (FilteringService.switchStrategy treshold count).2 = count ∧
    ((FilteringService.switchStrategy treshold count).1 = Strategy.serverSide
      ↔ count > treshold) ∧
    ((FilteringService.switchStrategy treshold count).1 = Strategy.clientSide
      ↔ ¬ count > treshold) ∧
    (FilteringService.switchStrategy treshold treshold).1 = Strategy.clientSide := by
  unfold FilteringService.switchStrategy
  by_cases h : count > treshold <;> simp [h]

/-- C6 counterexample: a category-selection change event does not reset the
page number: from page 3, selecting the `Electronics` category (a change of
the filter set — the previous selection was null) leaves the component on
page 3. -/
theorem c6_filter_change_keeps_page_counterexample :
    (Component.onCategoriesSelectedChange
        ⟨.multiselect, none, none, none, none, some [("Electronics", true)]⟩
        { products := PRODUCTS
          filteredProducts := PRODUCTS
          currentPageProducts := []
          currentPage := 3
          pageSize := 2
          searchTerm := ""
          totalItems := 10
          categoriesSelected := none
          priceRangeSelected := none }).currentPage = 3 ∧
    (Component.onCategoriesSelectedChange
        ⟨.multiselect, none, none, none, none, some [("Electronics", true)]⟩
        { products := PRODUCTS
          filteredProducts := PRODUCTS
          currentPageProducts := []
          currentPage := 3
          pageSize := 2
          searchTerm := ""
          totalItems := 10
          categoriesSelected := none
          priceRangeSelected := none }).categoriesSelected
      = some [("Electronics", true)] := by
  exact ⟨by decide, by decide⟩

/-- C6 amended: search-term changes and page-size changes reset the current
page to 1; category-selection and price-range changes re-apply the filters
but leave the current page unchanged; a page-change event just installs the
new page number. -/
theorem c6_page_reset_events (st : Component.State) (term : String) (n : Nat)
    (f : ProductFilter) :
    (Component.onSearch term st).currentPage = 1 ∧
    (Component.onPageSizeChange n st).currentPage = 1 ∧
    (Component.onCategoriesSelectedChange f st).currentPage = st.currentPage ∧
    (Component.onPriceRangeChange f st).currentPage = st.currentPage ∧
    (Component.onPageChange n st).currentPage = n := by
  obtain ⟨ps, fp, cp, page, size, tm, ti, cats, pr⟩ := st
  obtain ⟨ftype, fval, frange, fgt, fsm, fmulti⟩ := f
  refine ⟨?_, ?_, ?_, ?_, rfl⟩ <;>
    cases cats <;> cases pr <;> cases fmulti <;> cases frange <;>
      simp [Component.onSearch, Component.onPageSizeChange,
        Component.onCategoriesSelectedChange, Component.onPriceRangeChange,
        Component.applyFiltersAndSearch, Component.paginateProducts,
        Component.searchProducts, Component.filterPriceRange,
        Component.filterCategories]

/-- C7 counterexample: with `pageSize = 0` the in-memory engine does not
fail; it returns a `PageResult` (empty page, full filtered count) — there
is no `InvalidPageSize` error anywhere in the code. -/
theorem c7_pageSize_zero_counterexample :
    ClientSide.applyFiltersAndSearch PRODUCTS "" [] 1 0
      = { products := [], totalItems := 10 } := by
  decide

/-- C7 amended: for every query state with `pageSize = 0` the in-memory
engine returns a `PageResult` whose items are empty and whose `totalItems`
is the post-filter, pre-pagination count; it never rejects the input. -/
theorem c7_pageSize_zero_behavior (products : List Product)
    (searchTerm : String) (filters : List FilterEntry) (pageNumber : Nat) :
    (ClientSide.applyFiltersAndSearch products searchTerm filters
        pageNumber 0).products = [] ∧
    (ClientSide.applyFiltersAndSearch products searchTerm filters
        pageNumber 0).totalItems =
      (ClientSide.search searchTerm
        (ClientSide.applyFilters filters products)).length := by
  exact ⟨by simp [ClientSide.applyFiltersAndSearch, ClientSide.paginate], rfl⟩

/-- C8 counterexample: searching `"phone"` over the ten-product mock
dataset yields two matches, not one — the case-insensitive substring search
also matches the product named `Headphones`. -/
theorem c8_scenarioB_counterexample :
    (ClientSide.applyFiltersAndSearch PRODUCTS "phone" [] 1 5).totalItems ≠ 1 ∧
    (⟨6, "Headphones", "Electronics", 199, "Noise-cancelling"⟩ : Product)
      ∈ (ClientSide.applyFiltersAndSearch PRODUCTS "phone" [] 1 5).products := by
  exact ⟨by decide, by decide⟩

/-- C8 amended: over the ten-product mock dataset with no filters,
`applyFiltersAndSearch` with search term `"phone"` (page 1, page size 5)
returns `totalItems = 2` and the products `Phone` and `Headphones`, in
dataset order. -/
theorem c8_scenarioB_phone_search :
    ClientSide.applyFiltersAndSearch PRODUCTS "phone" [] 1 5 =
      { products := [⟨2, "Phone", "Electronics", 699, "Smartphone"⟩,
                     ⟨6, "Headphones", "Electronics", 199, "Noise-cancelling"⟩]
        totalItems := 2 } := by
  decide

/-- C4: for page numbers and page sizes at least 1, the in-memory engine's
page has at most `pageSize` items, exactly
`min(pageSize, max(0, totalItems - (pageNumber-1)*pageSize))` of them, and a
page beyond the last yields an empty page (with `totalItems` still the
post-filter count) rather than an error. -/
theorem c4_pagination_invariant (products : List Product)
    (searchTerm : String) (filters : List FilterEntry)
    (pageNumber pageSize : Nat) (r : PageResult)
    (hr : r = ClientSide.applyFiltersAndSearch products searchTerm filters
      pageNumber pageSize)
    (hp : 1 ≤ pageNumber) (hs : 1 ≤ pageSize) :
    r.products.length ≤ pageSize ∧
    (r.products.length : Int) =
      min (pageSize : Int)
        (max 0 ((r.totalItems : Int) - ((pageNumber : Int) - 1) * (pageSize : Int))) ∧
    (r.totalItems ≤ (pageNumber - 1) * pageSize → r.products = []) := by
  subst hr
  have hlen : (ClientSide.applyFiltersAndSearch products searchTerm filters
        pageNumber pageSize).products.length
      = min pageSize
        ((ClientSide.search searchTerm
            (ClientSide.applyFilters filters products)).length
          - (pageNumber - 1) * pageSize) := by
    simp [ClientSide.applyFiltersAndSearch, ClientSide.paginate]
  have htot : (ClientSide.applyFiltersAndSearch products searchTerm filters
        pageNumber pageSize).totalItems
      = (ClientSide.search searchTerm
          (ClientSide.applyFilters filters products)).length := rfl
  have hc : ((pageNumber : Int) - 1) * (pageSize : Int)
      = (((pageNumber - 1) * pageSize : Nat) : Int) := by
    push_cast [Nat.cast_sub hp]
    ring
  rw [hc]
  refine ⟨by omega, by omega, fun h => List.eq_nil_of_length_eq_zero (by omega)⟩

/-- C4 witness: page 3 of size 4 over the ten-product dataset has the
claimed length (2 = min(4, 10 - 8)). -/
theorem c4_pagination_invariant_witness :
    (ClientSide.applyFiltersAndSearch PRODUCTS "" [] 3 4).products.length ≤ 4 ∧
    ((ClientSide.applyFiltersAndSearch PRODUCTS "" [] 3 4).products.length : Int) =
      min (4 : Int)
        (max 0 (((ClientSide.applyFiltersAndSearch PRODUCTS "" [] 3 4).totalItems : Int)
          - ((3 : Int) - 1) * (4 : Int))) ∧
    ((ClientSide.applyFiltersAndSearch PRODUCTS "" [] 3 4).totalItems ≤ (3 - 1) * 4 →
      (ClientSide.applyFiltersAndSearch PRODUCTS "" [] 3 4).products = []) :=
  c4_pagination_invariant PRODUCTS "" [] 3 4
    (ClientSide.applyFiltersAndSearch PRODUCTS "" [] 3 4) rfl
    (by decide) (by decide)

/-- A multiselect filter entry none of whose entries is selected (or whose
map is null) passes through `applyOneFilter` without touching the list. -/
theorem applyOneFilter_no_selection (e : FilterEntry)
    (hkey : e.key = FilterType.multiselect)
    (hsel : Option.all (fun sel => sel.all (fun kv => !kv.2))
      e.value.multiselect = true)
    (ps : List Product) :
    ClientSide.applyOneFilter e ps = ps := by
  obtain ⟨k, v⟩ := e
  subst hkey
  cases hm : v.multiselect with
  | none => simp [ClientSide.applyOneFilter, hm]
  | some sel =>
    rw [hm] at hsel
    have hall : sel.all (fun kv => !kv.2) = true := hsel
    have hany : sel.any (fun kv => kv.2) = false := by
      rw [List.any_eq_false]
      intro kv hkv
      have h1 := List.all_eq_true.mp hall kv hkv
      simp at h1
      simp [h1]
    simp [ClientSide.applyOneFilter, hm, ClientSide.applyCategoryFilter, hany]

/-- C5: inserting a multiselect filter with no selected entry (every mapped
value `false`, or an empty or null map) anywhere in the filter list leaves
the whole `PageResult` — items and `totalItems` — unchanged. -/
theorem c5_vacuous_multiselect_filter (products : List Product)
    (searchTerm : String) (l1 l2 : List FilterEntry) (e : FilterEntry)
    (pageNumber pageSize : Nat)
    (hkey : e.key = FilterType.multiselect)
    (hsel : Option.all (fun sel => sel.all (fun kv => !kv.2))
      e.value.multiselect = true) :
    ClientSide.applyFiltersAndSearch products searchTerm (l1 ++ e :: l2)
        pageNumber pageSize
      = ClientSide.applyFiltersAndSearch products searchTerm (l1 ++ l2)
          pageNumber pageSize := by
  have hf : ClientSide.applyFilters (l1 ++ e :: l2) products
      = ClientSide.applyFilters (l1 ++ l2) products := by
    simp [ClientSide.applyFilters, List.foldl_append, List.foldl_cons,
      applyOneFilter_no_selection e hkey hsel]
  simp [ClientSide.applyFiltersAndSearch, hf]

/-- C5 witness: an all-false two-category multiselect filter over the
ten-product dataset gives the same result as no filter. -/
theorem c5_vacuous_multiselect_filter_witness :
    ClientSide.applyFiltersAndSearch PRODUCTS ""
        ([] ++ (⟨.multiselect, ⟨.multiselect, none, none, none, none,
          some [("Electronics", false), ("Fashion", false)]⟩⟩ : FilterEntry) :: [])
        1 5
      = ClientSide.applyFiltersAndSearch PRODUCTS "" ([] ++ []) 1 5 :=
  c5_vacuous_multiselect_filter PRODUCTS "" [] []
    ⟨.multiselect, ⟨.multiselect, none, none, none, none,
      some [("Electronics", false), ("Fashion", false)]⟩⟩ 1 5 rfl (by decide)

/-- A filter entry keyed `value`, `greater` or `smaller` falls through the
`switch` of `applyFilters` unhandled. -/
theorem applyOneFilter_unhandled_key (e : FilterEntry)
    (hkey : e.key = FilterType.value ∨ e.key = FilterType.greater ∨
      e.key = FilterType.smaller)
    (ps : List Product) :
    ClientSide.applyOneFilter e ps = ps := by
  obtain ⟨k, v⟩ := e
  rcases hkey with h | h | h <;> subst h <;> rfl

/-- C9: a filter entry whose key is `value`, `greater` or `smaller` is
silently ignored by the in-memory engine: inserting it anywhere in the
filter list leaves the whole `PageResult` unchanged. -/
theorem c9_ignored_filter_keys (products : List Product)
    (searchTerm : String) (l1 l2 : List FilterEntry) (e : FilterEntry)
    (pageNumber pageSize : Nat)
    (hkey : e.key = FilterType.value ∨ e.key = FilterType.greater ∨
      e.key = FilterType.smaller) :
    ClientSide.applyFiltersAndSearch products searchTerm (l1 ++ e :: l2)
        pageNumber pageSize
      = ClientSide.applyFiltersAndSearch products searchTerm (l1 ++ l2)
          pageNumber pageSize := by
  have hf : ClientSide.applyFilters (l1 ++ e :: l2) products
      = ClientSide.applyFilters (l1 ++ l2) products := by
    simp [ClientSide.applyFilters, List.foldl_append, List.foldl_cons,
      applyOneFilter_unhandled_key e hkey]
  simp [ClientSide.applyFiltersAndSearch, hf]

/-- C9 witness: a populated `value` filter over the ten-product dataset is
ignored. -/
theorem c9_ignored_filter_keys_witness :
    ClientSide.applyFiltersAndSearch PRODUCTS ""
        ([] ++ (⟨.value, ⟨.value, some "Laptop", none, none, none, none⟩⟩ :
          FilterEntry) :: []) 1 5
      = ClientSide.applyFiltersAndSearch PRODUCTS "" ([] ++ []) 1 5 :=
  c9_ignored_filter_keys PRODUCTS "" [] []
    ⟨.value, ⟨.value, some "Laptop", none, none, none, none⟩⟩ 1 5
    (Or.inl rfl)

/-- C10: `applyFiltersAndSearch` of the remote engine stores the search
term, filters, page number and page size it was called with, and a
subsequent `paginate(newPage, newSize)` re-issues the query with the stored
search term and filters and the new page and page size. -/
theorem c10_remote_paginate_preserves_query (st : ServerSide.RemoteState)
    (searchTerm : String) (filters : List FilterEntry)
    (pageNumber pageSize newPage newSize : Nat) :
    (ServerSide.applyCall st searchTerm filters pageNumber pageSize).1
      = ⟨searchTerm, filters, pageNumber, pageSize⟩ ∧
    (ServerSide.paginateCall
        (ServerSide.applyCall st searchTerm filters pageNumber pageSize).1
        newPage newSize).2
      = ServerSide.buildPayload searchTerm filters newPage newSize ∧
    (ServerSide.paginateCall
        (ServerSide.applyCall st searchTerm filters pageNumber pageSize).1
        newPage newSize).1
      = ⟨searchTerm, filters, newPage, newSize⟩ :=
  ⟨rfl, rfl, rfl⟩

/-- C1 counterexample: over a two-product dataset, a multiselect filter
selecting `Electronics` gives one match in the in-memory engine, but the
remote engine serializes the filter with the filter *type* as query key and
the (null) `value` slot as values, so the backend query
`{multiselect: {$in: []}}` matches nothing: totalItems 1 vs 0, items
`[Laptop]` vs `[]`. -/
theorem c1_engines_disagree_counterexample :
    ClientSide.applyFiltersAndSearch
        [⟨1, "Laptop", "Electronics", 999, "High-end laptop"⟩,
         ⟨3, "Shoes", "Fashion", 99, "Running shoes"⟩] ""
        [⟨.multiselect, ⟨.multiselect, none, none, none, none,
          some [("Electronics", true)]⟩⟩] 1 10
      = { products := [⟨1, "Laptop", "Electronics", 999, "High-end laptop"⟩]
          totalItems := 1 } ∧
    ServerSide.applyFiltersAndSearch
        [⟨1, "Laptop", "Electronics", 999, "High-end laptop"⟩,
         ⟨3, "Shoes", "Fashion", 99, "Running shoes"⟩] ""
        [⟨.multiselect, ⟨.multiselect, none, none, none, none,
          some [("Electronics", true)]⟩⟩] 1 10
      = Except.ok { products := [], totalItems := 0 } ∧
    ¬ ((1 : Nat) = 0 ∧
        ([⟨1, "Laptop", "Electronics", 999, "High-end laptop"⟩] : List Product)
          = []) :=
  ⟨rfl, rfl, by decide⟩

/-- The empty search needle is contained in every haystack
(JS `s.includes("") === true`). -/
theorem charsContain_nil (l : List Char) : charsContain [] l = true := by
  cases l <;> simp [charsContain, charsPrefix]

/-- The in-memory search predicate accepts everything when the search term
is empty. -/
theorem searchMatch_empty_term (p : Product) :
    ClientSide.searchMatch "" p = true := by
  have h : lowerStr "" = [] := rfl
  simp [ClientSide.searchMatch, strIncludes, h, charsContain_nil]

/-- The backend's `$or` search clause and the in-memory search predicate
test the same three fields, in different order. -/
theorem searchClause_eq_searchMatch (term : String) (p : Product) :
    Server.searchClause term p = ClientSide.searchMatch term p := by
  unfold Server.searchClause ClientSide.searchMatch
  cases hn : strIncludes p.name term <;>
    cases hc : strIncludes p.category term <;>
      cases hd : strIncludes p.description term <;> simp [hn, hc, hd]

/-- C1 amended: the two engines agree — same `totalItems`, same ordered
items — on every search-only query (empty filter list), for every dataset,
search term (reading `$regex` with option `i` as case-insensitive literal
substring match), page number ≥ 1 and page size ≥ 1.  With a non-empty
filter list the engines can disagree (see the counterexample). -/
theorem c1_search_only_equivalence (dataset : List Product)
    (searchTerm : String) (pageNumber pageSize : Nat)
    (hp : 1 ≤ pageNumber) (hs : 1 ≤ pageSize) :
    ServerSide.applyFiltersAndSearch dataset searchTerm [] pageNumber pageSize
      = Except.ok
          (ClientSide.applyFiltersAndSearch dataset searchTerm [] pageNumber
            pageSize) := by
  have hpt : ∀ p, Server.matchesQuery searchTerm [] p
      = ClientSide.searchMatch searchTerm p := by
    intro p
    by_cases ht : searchTerm = ""
    · subst ht
      simp [Server.matchesQuery, searchMatch_empty_term]
    · simp [Server.matchesQuery, ht, searchClause_eq_searchMatch]
  have hfilter : dataset.filter (Server.matchesQuery searchTerm [])
      = ClientSide.search searchTerm (ClientSide.applyFilters [] dataset) := by
    simp [ClientSide.applyFilters, ClientSide.search]
    exact List.filter_congr (fun p _ => hpt p)
  have hsz : pageSize ≠ 0 := by omega
  simp [ServerSide.applyFiltersAndSearch, Server.filterProducts,
    ServerSide.buildPayload, Server.buildConds, List.foldlM_nil, Except.map,
    pure, Except.pure, hfilter, Server.mongoLimit, Server.mongoSkip, hsz,
    ClientSide.applyFiltersAndSearch, ClientSide.paginate]

/-- C1 witness: the two engines agree on the `"phone"` search over the
ten-product dataset. -/
theorem c1_search_only_equivalence_witness :
    ServerSide.applyFiltersAndSearch PRODUCTS "phone" [] 1 5
      = Except.ok (ClientSide.applyFiltersAndSearch PRODUCTS "phone" [] 1 5) :=
  c1_search_only_equivalence PRODUCTS "phone" 1 5 (by decide) (by decide)

end Claims


